import Mathlib

/-!
Shallow embedding of `src/main.py` of MEIGA-SR (version 1.1.0): the
command-line orchestrator that resolves CLI arguments plus an INI-style
configuration file into a configuration dictionary and dispatches one of two
calling engines.

Modelling conventions:
* Python exceptions that the script can actually raise on the modelled paths
  (`AttributeError` from a missing namespace attribute or a missing `.split`
  method, `ValueError` from `int()`/`float()`/boolean coercion) are values of
  `PyErr`; fallible steps return `Except PyErr _`.
* Side effects (directory creation, logger setup, calls into the external
  collaborators `bamtools.get_refs` and the two engine constructors) are
  recorded in an effect trace; the external collaborators' return values are
  supplied by a `World` record.
* `configparser` details: `SectionProxy.get(key)` (and the derived
  `getint`/`getfloat`/`getboolean`) return the `None` fallback when the option
  is missing from the section, because `SectionProxy.get` catches
  `NoOptionError`; when the option is present but malformed the coercion's
  `ValueError` propagates.  The parsed `[MEIGA-SR]` section is modelled as a
  lookup function `String → Option String` (option-name lowercasing by
  `optionxform` is applied identically to stored and queried keys, so it is
  transparent to this model).
-/

/-- Python exceptions raised by the script on the modelled paths.
`attributeError a` stands for `AttributeError` complaining about attribute
`a`; `valueError raw` stands for `ValueError` raised while coercing the raw
string `raw`. -/
inductive PyErr where
  | attributeError (attr : String)
  | valueError (raw : String)
deriving DecidableEq, Repr

/-- Python whitespace characters recognised by `str.strip()`. -/
def isPySpace (c : Char) : Bool :=
  c = ' ' || c = '\t' || c = '\n' || c = '\r' || c = '\x0b' || c = '\x0c'

/-- Characters of `str.strip()`: drop whitespace from both ends. -/
def pyStripChars (l : List Char) : List Char :=
  ((l.dropWhile isPySpace).reverse.dropWhile isPySpace).reverse

/-- Python `str.strip()`. -/
def pyStrip (s : String) : String :=
  String.mk (pyStripChars s.data)

/-- Split a character list at every occurrence of `sep`; the Python
`str.split(sep)` semantics for a one-character separator: no collapsing of
adjacent separators and no dropping of empty segments. -/
def splitOnChar (sep : Char) : List Char → List (List Char)
  | [] => [[]]
  | c :: cs =>
    if c = sep then [] :: splitOnChar sep cs
    else
      match splitOnChar sep cs with
      | [] => [[c]]
      | g :: gs => (c :: g) :: gs

/-- Number of occurrences of a character in a list (used to state that
comma-splitting never drops segments). -/
def countChar (sep : Char) : List Char → Nat
  | [] => 0
  | c :: cs => (if c = sep then 1 else 0) + countChar sep cs

/-- Python `s.split(',')`. -/
def pySplitComma (s : String) : List String :=
  (splitOnChar ',' s.data).map String.mk

/-- The list comprehension `[x.strip() for x in s.split(',')]` used by the
script for every comma-separated config value. -/
def pySplitStrip (s : String) : List String :=
  (pySplitComma s).map pyStrip

/-- Value of a nonempty all-digit character list. -/
def digitsVal (l : List Char) : Nat :=
  l.foldl (fun a c => a * 10 + (c.toNat - 48)) 0

/-- Core of Python `int(str)` after stripping: optional sign followed by a
nonempty digit run.  (Underscore digit grouping and non-ASCII digits are not
modelled; no configuration value in question uses them.) -/
def pyIntCore : List Char → Option Int
  | [] => none
  | '+' :: ds => if !ds.isEmpty && ds.all Char.isDigit then some (digitsVal ds : Int) else none
  | '-' :: ds => if !ds.isEmpty && ds.all Char.isDigit then some (-(digitsVal ds : Int)) else none
  | ds => if ds.all Char.isDigit then some (digitsVal ds : Int) else none

/-- Python `int(s)`: `ValueError` on anything that is not an optionally
signed digit run surrounded by whitespace. -/
def pyInt (s : String) : Except PyErr Int :=
  match pyIntCore (pyStripChars s.data) with
  | some n => .ok n
  | none => .error (.valueError s)

/-- Magnitude part of Python `float(str)`: `digits`, `digits.digits`,
`digits.` or `.digits`, read exactly as the rational
`intpart.fracpart = (intpart*10^k + fracpart) / 10^k`.  (Python floats are
IEEE doubles; no claim here depends on rounding, and scientific notation is
not modelled.) -/
def pyFloatMag (l : List Char) : Option Rat :=
  match splitOnChar '.' l with
  | [ip] => if !ip.isEmpty && ip.all Char.isDigit then some (mkRat (digitsVal ip) 1) else none
  | [ip, fp] =>
    if (!ip.isEmpty || !fp.isEmpty) && ip.all Char.isDigit && fp.all Char.isDigit then
      some (mkRat (digitsVal ip * 10 ^ fp.length + digitsVal fp) (10 ^ fp.length))
    else none
  | _ => none

/-- Sign handling of Python `float(str)` after stripping. -/
def pyFloatCore : List Char → Option Rat
  | [] => none
  | '+' :: ds => pyFloatMag ds
  | '-' :: ds => (pyFloatMag ds).map Rat.neg
  | ds => pyFloatMag ds

/-- Python `float(s)` restricted to plain decimal notation. -/
def pyFloat (s : String) : Except PyErr Rat :=
  match pyFloatCore (pyStripChars s.data) with
  | some q => .ok q
  | none => .error (.valueError s)

/-- Lower-case a string, as `str.lower()` does for the ASCII values that
`configparser` boolean coercion compares against. -/
def pyLower (s : String) : String :=
  String.mk (s.data.map Char.toLower)

/-- Coercion table of `configparser.RawConfigParser.BOOLEAN_STATES`. -/
def pyBoolConv (s : String) : Except PyErr Bool :=
  let t := pyLower s
  if t = "1" || t = "yes" || t = "true" || t = "on" then .ok true
  else if t = "0" || t = "no" || t = "false" || t = "off" then .ok false
  else .error (.valueError s)

/-- Version string declared at the top of the script. -/
def MEIGA_VERSION : String := "1.1.0"

/-- Value held by the Python variable `refs` after line 144: the config
string, the `None` fallback, or the sequence returned by
`bamtools.get_refs`. -/
inductive PyVal where
  | noneV
  | str (s : String)
  | list (l : List String)
deriving DecidableEq, Repr

/-- View an optional config value as a Python value. -/
def optToPyVal : Option String → PyVal
  | none => .noneV
  | some s => .str s

/-- Evaluate `[x.strip() for x in v.split(',')]`: only strings have a
`.split` method, so `None` and list values raise `AttributeError`. -/
def pyValSplitStrip : PyVal → Except PyErr (List String)
  | .str s => .ok (pySplitStrip s)
  | _ => .error (.attributeError "split")

/-- Reading an attribute of the argparse namespace: absent attribute means
`AttributeError`. -/
def pyGetattr {α : Type} (v : Option α) (attr : String) : Except PyErr α :=
  match v with
  | none => .error (.attributeError attr)
  | some a => .ok a

/-- Sentinel mapping used for `germlineMEI`, `targetBins` and `sourceBed`:
`None if config.get(k) == 'none' else config.get(k)`. -/
def noneSentinel (v : Option String) : Option String :=
  if v = some "none" then none else v

/-- `config.get(key)` on the section proxy: `None` fallback when missing. -/
def cfgGet (cfg : String → Option String) (key : String) : Option String :=
  cfg key

/-- `config.getint(key)`: `None` fallback when the option is missing
(`SectionProxy.get` catches `NoOptionError`), `int(value)` otherwise. -/
def cfgGetInt (cfg : String → Option String) (key : String) : Except PyErr (Option Int) :=
  match cfg key with
  | none => .ok none
  | some raw => (pyInt raw).map some

/-- `config.getfloat(key)` with the same missing-key fallback. -/
def cfgGetFloat (cfg : String → Option String) (key : String) : Except PyErr (Option Rat) :=
  match cfg key with
  | none => .ok none
  | some raw => (pyFloat raw).map some

/-- `config.getboolean(key)` with the same missing-key fallback. -/
def cfgGetBool (cfg : String → Option String) (key : String) : Except PyErr (Option Bool) :=
  match cfg key with
  | none => .ok none
  | some raw => (pyBoolConv raw).map some

/-- Fields of `confDict` assembled on lines 124-170 of `main.py` (everything
except `outDir`/`logDir`, which are inserted later, on lines 180-181).
Field names follow the dictionary keys. -/
structure PreConf where
  source : String
  species : Option String
  build : Option String
  annovarDir : Option String
  germlineMEI : Option String
  processes : Int
  debug : Bool
  predict : Bool
  targetBins : Option String
  binSize : Option Int
  filterDup : Option Bool
  readFilters : List String
  minMAPQ : Option Int
  minCLIPPINGlen : Option Int
  targetEvents : List String
  targetRefs : List String
  minClusterSize : Option Int
  maxClusterSize : Option Int
  maxBkpDist : Option Int
  minPercRcplOverlap : Option Int
  equalOrientBuffer : Option Int
  oppositeOrientBuffer : Option Int
  minReads : Option Int
  minNormalReads : Option Int
  minNbDISCORDANT : Option Int
  minNbCLIPPING : Option Int
  minReadsRegionMQ : Option Rat
  maxRegionlowMQ : Option Rat
  maxRegionSMS : Option Rat
  retroTestWGS : Option Bool
  blatClip : Option Bool
  tdEnds : List String
  srcBed : Option String
  srcFamilies : List String
deriving DecidableEq, Repr

/-- The complete `confDict` handed to the calling engine (lines 180-181 add
the resolved output and log directories). -/
structure ConfDict extends PreConf where
  outDir : String
  logDir : String
deriving DecidableEq, Repr

/-- Observable side effects of the script, in execution order. -/
inductive Effect where
  | mkDir (path : String)
  | setupLogger (file : String)
  | getRefs (bam : String)
  | MEI_caller (mode bam : String) (normalBam : Option String)
      (reference refDir : Option String) (conf : ConfDict)
  | transduction_caller (mode bam : String) (normalBam : Option String)
      (reference refDir : Option String) (conf : ConfDict)
  | callEngine
deriving DecidableEq, Repr

/-- True exactly for a `bamtools.get_refs` invocation. -/
def isGetRefs : Effect → Bool
  | .getRefs _ => true
  | _ => false

/-- How the process ends: `exit(n)` / normal script end (status 0), or an
uncaught Python exception. -/
inductive Outcome where
  | exited (code : Nat)
  | uncaught (e : PyErr)
deriving DecidableEq, Repr

/-- External collaborators and ambient state consumed by the script.
`config` is the parsed `[MEIGA-SR]` section of the file named by the
`config` argument; `now n` is the string produced by the (n+1)-th
`datetime.now().strftime("%Y%m%d%H%M%S")` call; `cwd` is `os.getcwd()`. -/
structure World where
  missingPyDeps : List String
  missingProgDeps : List String
  missing_db : Option String → Option String → List String
  /-- Modelled from the spec: `bamtools.get_refs` lives in the external GAPI
  package (not under `src/`); per spec §4.2 its contract is
  `get_refs(samplePath) -> ordered sequence of reference names`. -/
  get_refs : String → List String
  config : String → Option String
  now : Nat → String
  cwd : String

/-- Command lines accepted by the argument parser: no subcommand (accepted,
because `add_subparsers` is not marked required), or one of the two
subcommands with their positionals and options.  `call-tds` registers no
`--predict` flag. -/
inductive CmdLine where
  | empty
  | call (config bam : String) (normalBam : Option String) (outDir : Option String)
      (processes : Option Int) (debug predict : Bool)
  | callTds (config bam : String) (normalBam : Option String) (outDir : Option String)
      (processes : Option Int) (debug : Bool)
deriving DecidableEq, Repr

/-- Result of `parser.parse_args()`: an argparse namespace whose attributes
exist only when the chosen subparser defines them (`none` = attribute
absent). -/
structure PyNamespace where
  call_tds : Option Bool := none
  config : Option String := none
  bam : Option String := none
  normalBam : Option (Option String) := none
  outDir : Option String := none
  processes : Option Int := none
  debug : Option Bool := none
  predict : Option Bool := none
deriving DecidableEq, Repr

/-- `parser.parse_args()` for the three accepted command-line shapes.
Defaults as declared by `add_argument`: `normalBam` defaults to `None`,
`outDir` to `os.getcwd()`, `processes` to 1, flags to `False`.  With no
subcommand nothing sets any attribute. -/
def parseArgs (w : World) : CmdLine → PyNamespace
  | .empty => {}
  | .call c b nb od p d pr =>
    { call_tds := some false, config := some c, bam := some b, normalBam := some nb,
      outDir := some (od.getD w.cwd), processes := some (p.getD 1),
      debug := some d, predict := some pr }
  | .callTds c b nb od p d =>
    { call_tds := some true, config := some c, bam := some b, normalBam := some nb,
      outDir := some (od.getD w.cwd), processes := some (p.getD 1),
      debug := some d }

/-- Python truthiness of the `normalBam` value (`Optional[str]`): `None`
and the empty string are falsy. -/
def pyTruthy : Option String → Bool
  | none => false
  | some s => s != ""

/-- Line 111: `mode = 'PAIRED' if normalBam else 'SINGLE'`. -/
def runningMode (normalBam : Option String) : String :=
  if pyTruthy normalBam then "PAIRED" else "SINGLE"

/-- Output-directory derivation of lines 101-103 and 172-176: under debug
the user directory is suffixed with `'/' + timeStamp`, where the timestamp
is the (n+1)-th `datetime.now()` reading; otherwise it is used as is. -/
def mkOutDir (w : World) (base : String) (debug : Bool) (n : Nat) : String :=
  if debug then base ++ "/" ++ w.now n else base

/-- Lines 122-170 of `main.py`: assembly of `confDict` from the parsed
config section, in source order.  `processes`, `debugFlag` and the
`predict` attribute come from the argparse namespace (`args.predict` is
read on line 131, so it is dereferenced here, after the general fields and
before the BAM-processing fields); `bam` is needed for the `get_refs` call
on line 144.  The returned effect list records whether `bamtools.get_refs`
was invoked; it is reported even when a later line raises, since by then
the call has already happened. -/
def resolveConf (w : World) (processes : Int) (debugFlag : Bool)
    (predictAttr : Option Bool) (bam : String) :
    List Effect × Except PyErr PreConf :=
  let cfg := w.config
  let species := cfgGet cfg "species"
  let build := cfgGet cfg "build"
  let annovarDir := cfgGet cfg "annovarDir"
  let germlineMEI := noneSentinel (cfgGet cfg "germlineMEI")
  match pyGetattr predictAttr "predict" with
  | .error e => ([], .error e)
  | .ok predict =>
  let targetBins := noneSentinel (cfgGet cfg "targetBins")
  match cfgGetInt cfg "binSize" with
  | .error e => ([], .error e)
  | .ok binSize =>
  match cfgGetBool cfg "noDuplicates" with
  | .error e => ([], .error e)
  | .ok filterDup =>
  match pyValSplitStrip (optToPyVal (cfgGet cfg "readFilters")) with
  | .error e => ([], .error e)
  | .ok readFilters =>
  match cfgGetInt cfg "minMAPQ" with
  | .error e => ([], .error e)
  | .ok minMAPQ =>
  match cfgGetInt cfg "minCLIPPINGlen" with
  | .error e => ([], .error e)
  | .ok minCLIPPINGlen =>
  let targetEvents := ["DISCORDANT", "CLIPPING"]
  let refsRaw := cfgGet cfg "refs"
  let refsPair : List Effect × PyVal :=
    if refsRaw = some "ALL" then ([.getRefs bam], .list (w.get_refs bam))
    else ([], optToPyVal refsRaw)
  let refsEff := refsPair.1
  match pyValSplitStrip refsPair.2 with
  | .error e => (refsEff, .error e)
  | .ok targetRefs =>
  match cfgGetInt cfg "minClusterSize" with
  | .error e => (refsEff, .error e)
  | .ok minClusterSize =>
  match cfgGetInt cfg "maxClusterSize" with
  | .error e => (refsEff, .error e)
  | .ok maxClusterSize =>
  match cfgGetInt cfg "BKPdist" with
  | .error e => (refsEff, .error e)
  | .ok maxBkpDist =>
  match cfgGetInt cfg "minPercOverlap" with
  | .error e => (refsEff, .error e)
  | .ok minPercRcplOverlap =>
  match cfgGetInt cfg "equalOrientBuffer" with
  | .error e => (refsEff, .error e)
  | .ok equalOrientBuffer =>
  match cfgGetInt cfg "oppositeOrientBuffer" with
  | .error e => (refsEff, .error e)
  | .ok oppositeOrientBuffer =>
  match cfgGetInt cfg "minReads" with
  | .error e => (refsEff, .error e)
  | .ok minReads =>
  match cfgGetInt cfg "minNormalReads" with
  | .error e => (refsEff, .error e)
  | .ok minNormalReads =>
  match cfgGetInt cfg "minClusterSize" with
  | .error e => (refsEff, .error e)
  | .ok minNbDISCORDANT =>
  match cfgGetInt cfg "minClusterSize" with
  | .error e => (refsEff, .error e)
  | .ok minNbCLIPPING =>
  match cfgGetFloat cfg "minReadsRegionMQ" with
  | .error e => (refsEff, .error e)
  | .ok minReadsRegionMQ =>
  match cfgGetFloat cfg "maxRegionlowMQ" with
  | .error e => (refsEff, .error e)
  | .ok maxRegionlowMQ =>
  match cfgGetFloat cfg "maxRegionSMS" with
  | .error e => (refsEff, .error e)
  | .ok maxRegionSMS =>
  match cfgGetBool cfg "wgsData" with
  | .error e => (refsEff, .error e)
  | .ok retroTestWGS =>
  match cfgGetBool cfg "blatClip" with
  | .error e => (refsEff, .error e)
  | .ok blatClip =>
  match pyValSplitStrip (optToPyVal (cfgGet cfg "transductionEnds")) with
  | .error e => (refsEff, .error e)
  | .ok tdEnds =>
  let srcBed := noneSentinel (cfgGet cfg "sourceBed")
  match pyValSplitStrip (optToPyVal (cfgGet cfg "srcFamilies")) with
  | .error e => (refsEff, .error e)
  | .ok srcFamilies =>
  (refsEff, .ok {
    source := "MEIGA-SR-" ++ MEIGA_VERSION,
    species := species, build := build, annovarDir := annovarDir,
    germlineMEI := germlineMEI, processes := processes, debug := debugFlag,
    predict := predict, targetBins := targetBins, binSize := binSize,
    filterDup := filterDup, readFilters := readFilters, minMAPQ := minMAPQ,
    minCLIPPINGlen := minCLIPPINGlen, targetEvents := targetEvents,
    targetRefs := targetRefs, minClusterSize := minClusterSize,
    maxClusterSize := maxClusterSize, maxBkpDist := maxBkpDist,
    minPercRcplOverlap := minPercRcplOverlap,
    equalOrientBuffer := equalOrientBuffer,
    oppositeOrientBuffer := oppositeOrientBuffer, minReads := minReads,
    minNormalReads := minNormalReads, minNbDISCORDANT := minNbDISCORDANT,
    minNbCLIPPING := minNbCLIPPING, minReadsRegionMQ := minReadsRegionMQ,
    maxRegionlowMQ := maxRegionlowMQ, maxRegionSMS := maxRegionSMS,
    retroTestWGS := retroTestWGS, blatClip := blatClip, tdEnds := tdEnds,
    srcBed := srcBed, srcFamilies := srcFamilies })

/-- The whole script, lines 22-239, as a function from the external world
and the command line to the effect trace and the process outcome.
Elided as pure/irrelevant to every claim: `mp.set_start_method`,
`time.time` bookkeeping, and the contents of the `logger.info` calls (the
logger-file creation itself is the `setupLogger` effect; `args.call_tds`
is dereferenced where line 199 first reads it).  Normal fall-through off
the end of the script is process status 0. -/
def runMain (w : World) (cmd : CmdLine) : List Effect × Outcome :=
  let missingDeps := if w.missingPyDeps.isEmpty then w.missingProgDeps else w.missingPyDeps
  if !missingDeps.isEmpty then ([], .exited 1)
  else
    let args := parseArgs w cmd
    match pyGetattr args.config "config" with
    | .error e => ([], .uncaught e)
    | .ok _configFile =>
    match pyGetattr args.bam "bam" with
    | .error e => ([], .uncaught e)
    | .ok bam =>
    match pyGetattr args.normalBam "normalBam" with
    | .error e => ([], .uncaught e)
    | .ok normalBam =>
    match pyGetattr args.processes "processes" with
    | .error e => ([], .uncaught e)
    | .ok processes =>
    match pyGetattr args.outDir "outDir" with
    | .error e => ([], .uncaught e)
    | .ok outDirArg =>
    match pyGetattr args.debug "debug" with
    | .error e => ([], .uncaught e)
    | .ok debug =>
    let outDir1 := mkOutDir w outDirArg debug 0
    let trace1 : List Effect := [.mkDir outDir1]
    let mode := runningMode normalBam
    let reference := cfgGet w.config "reference"
    let refDir := cfgGet w.config "refDir"
    match resolveConf w processes debug args.predict bam with
    | (effs, .error e) => (trace1 ++ effs, .uncaught e)
    | (effs, .ok pre) =>
      let outDir2 := mkOutDir w outDirArg debug 1
      let logDir := outDir2 ++ "/logs"
      let conf : ConfDict := { toPreConf := pre, outDir := outDir2, logDir := logDir }
      let trace2 := trace1 ++ effs ++
        [.mkDir outDir2, .mkDir logDir, .setupLogger (logDir ++ "/main.log")]
      match pyGetattr args.call_tds "call_tds" with
      | .error e => (trace2, .uncaught e)
      | .ok callTds =>
        let missingDB := w.missing_db refDir conf.annovarDir
        if !missingDB.isEmpty then (trace2, .exited 1)
        else
          let engine : Effect :=
            if callTds then
              .transduction_caller mode bam normalBam reference refDir conf
            else
              .MEI_caller mode bam normalBam reference refDir conf
          (trace2 ++ [engine, .callEngine], .exited 0)

/-- A complete, well-formed `[MEIGA-SR]` section, as key/value pairs. -/
def goodPairs : List (String × String) :=
  [("reference", "ref.fa"), ("refDir", "/refs"), ("species", "human"),
   ("build", "hg38"), ("annovarDir", "/annovar"), ("germlineMEI", "none"),
   ("targetBins", "none"), ("binSize", "1000"), ("noDuplicates", "true"),
   ("readFilters", "SMS, MAPQ"), ("minMAPQ", "20"), ("minCLIPPINGlen", "8"),
   ("refs", "chr1, chr2,chr3"), ("minClusterSize", "3"),
   ("maxClusterSize", "300"), ("BKPdist", "100"), ("minPercOverlap", "50"),
   ("equalOrientBuffer", "0"), ("oppositeOrientBuffer", "10"),
   ("minReads", "1"), ("minNormalReads", "1"), ("minReadsRegionMQ", "20.5"),
   ("maxRegionlowMQ", "0.5"), ("maxRegionSMS", "0.5"), ("wgsData", "true"),
   ("blatClip", "false"), ("transductionEnds", "5,3"), ("sourceBed", "none"),
   ("srcFamilies", "L1")]

/-- Lookup in a key/value list (first match). -/
def lookupCfg (ps : List (String × String)) (k : String) : Option String :=
  (ps.find? (fun p => p.1 = k)).map (fun p => p.2)

/-- A world in which every dependency gate passes, the config file is
`goodPairs`, and the sample has references `chr1`, `chr2`. -/
def goodWorld : World where
  missingPyDeps := []
  missingProgDeps := []
  missing_db := fun _ _ => []
  get_refs := fun _ => ["chr1", "chr2"]
  config := lookupCfg goodPairs
  now := fun n => if n = 0 then "20260101000000" else "20260101000001"
  cwd := "/cwd"

/-- Invocation `main.py call conf.ini tumor.bam -o /out`. -/
def callCmd : CmdLine :=
  .call "conf.ini" "tumor.bam" none (some "/out") none false false

/-- Invocation `main.py call-tds conf.ini tumor.bam -o /out`. -/
def tdsCmd : CmdLine :=
  .callTds "conf.ini" "tumor.bam" none (some "/out") none false

/-- Point-update of a config section (used to build deviant config files). -/
def cfgSet (f : String → Option String) (k : String) (v : Option String) :
    String → Option String :=
  fun q => if q = k then v else f q

/-- Invocation `main.py call conf.ini tumor.bam --normalBam normal.bam -o /out`. -/
def pairedCmd : CmdLine :=
  .call "conf.ini" "tumor.bam" (some "normal.bam") (some "/out") none false false

/-- Invocation `main.py call conf.ini tumor.bam -o /out -d` (debug mode). -/
def debugCmd : CmdLine :=
  .call "conf.ini" "tumor.bam" none (some "/out") none true false

/-- Invocation `main.py call conf.ini tumor.bam -o /out -p 0`. -/
def procZeroCmd : CmdLine :=
  .call "conf.ini" "tumor.bam" none (some "/out") (some 0) false false

/-- World whose config file sets `refs = ALL`. -/
def wRefsALL : World :=
  { goodWorld with config := cfgSet (lookupCfg goodPairs) "refs" (some "ALL") }

/-- World whose config file lacks the `species` key. -/
def wNoSpecies : World :=
  { goodWorld with config := cfgSet (lookupCfg goodPairs) "species" none }

/-- World whose config file lacks the `binSize` key. -/
def wNoBinSize : World :=
  { goodWorld with config := cfgSet (lookupCfg goodPairs) "binSize" none }

/-- World whose config file lacks the `readFilters` key. -/
def wNoReadFilters : World :=
  { goodWorld with config := cfgSet (lookupCfg goodPairs) "readFilters" none }

/-- World whose config file sets `minMAPQ = -5`. -/
def wNegMAPQ : World :=
  { goodWorld with config := cfgSet (lookupCfg goodPairs) "minMAPQ" (some "-5") }

/-- World in which a python or program dependency is missing. -/
def depsWorld : World := { goodWorld with missingPyDeps := ["pysam"] }

/-- World in which the post-resolution database gate fails. -/
def dbWorld : World := { goodWorld with missing_db := fun _ _ => ["consensus.fa"] }

/-- World whose config file sets `minClusterSize` to an arbitrary raw value. -/
def worldMCS (v : String) : World :=
  { goodWorld with config := cfgSet (lookupCfg goodPairs) "minClusterSize" (some v) }


/-- C1: the spec's dispatch contract says each subcommand constructs exactly
one engine and invokes `call()`.  The `call` half holds (second conjunct:
one `MEI_caller` construction followed by one `call()`).  The `call-tds`
half is broken in the code: the `call-tds` subparser never defines a
`predict` attribute, yet line 131 reads `args.predict`, so every `call-tds`
invocation dies with an uncaught `AttributeError` before any engine is
constructed — the first conjunct shows the complete effect trace of a
`call-tds` run on a fully valid configuration: only the first `makedirs`,
no engine construction, no `call()`. -/
theorem meiga_C1_dispatch :
    runMain goodWorld tdsCmd = ([.mkDir "/out"], .uncaught (.attributeError "predict"))
    ∧ (∃ c : ConfDict, runMain goodWorld callCmd =
        ([.mkDir "/out", .mkDir "/out", .mkDir "/out/logs",
          .setupLogger "/out/logs/main.log",
          .MEI_caller "SINGLE" "tumor.bam" none (some "ref.fa") (some "/refs") c,
          .callEngine], .exited 0)) := by
  exact ⟨by rfl, ⟨_, by rfl⟩⟩

/-- C2: the claim says one second-granularity timestamp is generated and
shared by the output root and the log directory for every wall-clock
behaviour.  The code instead calls `datetime.now()` twice (lines 102 and
174); when the clock ticks between the calls the directory created on
line 106 carries the first timestamp while the resolved output root and
the `logs` directory carry the second: no `logs` directory is ever created
under the first timestamp. -/
theorem meiga_C2_timestamps :
    ∃ c : ConfDict,
      runMain goodWorld debugCmd =
        ([.mkDir "/out/20260101000000", .mkDir "/out/20260101000001",
          .mkDir "/out/20260101000001/logs",
          .setupLogger "/out/20260101000001/logs/main.log",
          .MEI_caller "SINGLE" "tumor.bam" none (some "ref.fa") (some "/refs") c,
          .callEngine], .exited 0)
      ∧ c.outDir = "/out/20260101000001"
      ∧ c.logDir = "/out/20260101000001/logs"
      ∧ Effect.mkDir "/out/20260101000000/logs" ∉ (runMain goodWorld debugCmd).1 := by
  refine ⟨_, by rfl, by rfl, by rfl, ?_⟩
  decide

/-- C5: the claim says a `refs = ALL` config resolves the target-reference
list to exactly the ordered sequence returned by `get_refs`, which is
invoked only in the wildcard case.  The "only" part holds (second conjunct:
a non-wildcard run performs no `get_refs` call).  The resolution part is
broken: line 145 applies `.split(',')` to the sequence returned by
`get_refs` (modelled from spec §4.2 as an ordered sequence of names), so a
wildcard run raises an uncaught `AttributeError` right after the
`get_refs` call, and no target-reference list is ever resolved. -/
theorem meiga_C5_refs :
    runMain wRefsALL callCmd =
      ([.mkDir "/out", .getRefs "tumor.bam"], .uncaught (.attributeError "split"))
    ∧ (runMain goodWorld callCmd).1.filter isGetRefs = [] := by
  exact ⟨by rfl, by rfl⟩

/-- C3 counterexample: a config file lacking the required `species` key
does not make resolution fail with a `ConfigurationError` naming the key
(the script defines no such error at all): resolution succeeds and returns
a record whose `species` field is `None`, because `SectionProxy.get`
silently returns its `None` fallback for a missing option. -/
theorem meiga_C3_counterexample :
    ∃ pre : PreConf,
      (resolveConf wNoSpecies 1 false (some false) "tumor.bam").2 = .ok pre
      ∧ pre.species = none := by
  exact ⟨_, by rfl, by rfl⟩

/-- C3 amended: a missing required key never raises a `ConfigurationError`.
String-valued keys (`species`) and coerced keys (`binSize`) resolve
silently to `None`; only the comma-split list keys (here `readFilters`)
fail, with an uncaught `AttributeError` from `None.split(',')`, which does
not name the missing key. -/
theorem meiga_C3_amended :
    (∃ pre : PreConf,
      (resolveConf wNoSpecies 1 false (some false) "tumor.bam").2 = .ok pre
      ∧ pre.species = none)
    ∧ (∃ pre : PreConf,
      (resolveConf wNoBinSize 1 false (some false) "tumor.bam").2 = .ok pre
      ∧ pre.binSize = none)
    ∧ (resolveConf wNoReadFilters 1 false (some false) "tumor.bam").2
        = .error (.attributeError "split") := by
  exact ⟨⟨_, by rfl, by rfl⟩, ⟨_, by rfl, by rfl⟩, by rfl⟩

/-- C4 counterexample: the resolved record is not validated.  A config with
`minMAPQ = -5` together with `-p 0` is accepted end to end: the run reaches
the engine with a negative threshold and a process count of 0, refuting
"all numeric threshold fields are non-negative and the process count is at
least 1". -/
theorem meiga_C4_counterexample :
    ∃ c : ConfDict,
      runMain wNegMAPQ procZeroCmd =
        ([.mkDir "/out", .mkDir "/out", .mkDir "/out/logs",
          .setupLogger "/out/logs/main.log",
          .MEI_caller "SINGLE" "tumor.bam" none (some "ref.fa") (some "/refs") c,
          .callEngine], .exited 0)
      ∧ c.minMAPQ = some (-5) ∧ c.processes = 0 ∧ ¬(1 ≤ c.processes) := by
  refine ⟨_, by rfl, by rfl, by rfl, ?_⟩
  decide

/-- C4 amended: resolution applies no range validation at all: the process
count is stored exactly as supplied on the command line (any integer,
default 1), and integer threshold fields store exactly the parsed config
value, negative values included. -/
theorem meiga_C4_amended :
    ∀ p : Int, ∃ pre : PreConf,
      (resolveConf wNegMAPQ p false (some false) "tumor.bam").2 = .ok pre
      ∧ pre.processes = p ∧ pre.minMAPQ = some (-5) := by
  intro p
  exact ⟨_, by rfl, by rfl, by rfl⟩

/-- C8: the running mode resolved on line 111 is `PAIRED` exactly when a
non-empty `--normalBam` path was supplied (Python truthiness: `None` and
the empty string are falsy) and `SINGLE` otherwise; `runningMode` is a
function of the `normalBam` value alone, so the mode is independent of
every other configuration field.  The second conjunct shows a paired
invocation reaching the engine with mode `PAIRED` and the normal sample
forwarded. -/
theorem meiga_C8_mode :
    (∀ nb : Option String,
      (runningMode nb = "PAIRED" ↔ nb ≠ none ∧ nb ≠ some "")
      ∧ (runningMode nb = "PAIRED" ∨ runningMode nb = "SINGLE"))
    ∧ (∃ c : ConfDict, runMain goodWorld pairedCmd =
        ([.mkDir "/out", .mkDir "/out", .mkDir "/out/logs",
          .setupLogger "/out/logs/main.log",
          .MEI_caller "PAIRED" "tumor.bam" (some "normal.bam")
            (some "ref.fa") (some "/refs") c,
          .callEngine], .exited 0)) := by
  constructor
  · intro nb
    cases nb with
    | none =>
      exact ⟨by simp [runningMode, pyTruthy], Or.inr rfl⟩
    | some s =>
      by_cases h : s = ""
      · subst h
        exact ⟨by simp [runningMode, pyTruthy], Or.inr rfl⟩
      · refine ⟨?_, Or.inl ?_⟩ <;> simp [runningMode, pyTruthy, h]
  · exact ⟨_, by rfl⟩

/-- C10: the top-level parser registers its subcommands without
`required=True`, so an invocation with no subcommand at all is accepted by
`parse_args` and yields a namespace with no attributes; the script then
dies on line 90 with an uncaught `AttributeError` reading `args.config`
(no argparse usage error, no defined exit status). -/
theorem meiga_C10_noSubcommand (w : World)
    (h1 : w.missingPyDeps = []) (h2 : w.missingProgDeps = []) :
    parseArgs w .empty = {}
    ∧ runMain w .empty = ([], .uncaught (.attributeError "config")) := by
  constructor
  · rfl
  · simp [runMain, h1, h2, parseArgs, pyGetattr]

/-- C10 witness: the theorem applied to a concrete dependency-clean world. -/
theorem meiga_C10_noSubcommand_witness :
    parseArgs goodWorld .empty = {}
    ∧ runMain goodWorld .empty = ([], .uncaught (.attributeError "config")) :=
  meiga_C10_noSubcommand goodWorld rfl rfl

/-- Splitting on a character yields exactly one segment more than there are
separator occurrences: no segment, empty or not, is ever dropped. -/
theorem splitOnChar_length (sep : Char) (l : List Char) :
    (splitOnChar sep l).length = countChar sep l + 1 := by
  induction l with
  | nil => rfl
  | cons c cs ih =>
    by_cases h : c = sep
    · simp only [splitOnChar, countChar, if_pos h, List.length_cons, ih]
      omega
    · simp only [splitOnChar, countChar, if_neg h]
      cases hr : splitOnChar sep cs with
      | nil => rw [hr] at ih; simp at ih
      | cons g gs =>
        rw [hr] at ih
        simp only [List.length_cons] at ih ⊢
        omega

/-- C6: every comma-separated config value is split on commas with each
element stripped of surrounding whitespace, order preserved and empty
elements kept: the spec's example `chr1, chr2,chr3` resolves to
`[chr1, chr2, chr3]`, a trailing comma yields a trailing empty string, and
in general the number of elements is always the comma count plus one (so
nothing is filtered).  The final conjunct ties this to resolution: the
`refs` and `readFilters` values of the good config resolve exactly so. -/
theorem meiga_C6_listSplit :
    pySplitStrip "chr1, chr2,chr3" = ["chr1", "chr2", "chr3"]
    ∧ pySplitStrip "a,b," = ["a", "b", ""]
    ∧ (∀ s : String, (pySplitStrip s).length = countChar ',' s.data + 1)
    ∧ (∃ pre : PreConf,
        (resolveConf goodWorld 1 false (some false) "tumor.bam").2 = .ok pre
        ∧ pre.targetRefs = ["chr1", "chr2", "chr3"]
        ∧ pre.readFilters = ["SMS", "MAPQ"]) := by
  refine ⟨by rfl, by rfl, ?_, ⟨_, by rfl, by rfl, by rfl⟩⟩
  intro s
  simp [pySplitStrip, pySplitComma, List.length_map, splitOnChar_length]

/-- C7: the two pre-configuration dependency gates and the post-resolution
database gate.  First conjunct: whenever the python- or program-dependency
check is non-empty the process exits with status 1 having performed no
effect at all — no directory created, no log file.  Second conjunct: when
the gates pass, resolution succeeds, and `missing_db` is non-empty, the
process exits with status 1 but only after creating the output directory
(twice: lines 106 and 183), the log directory and the log file; the trace
is complete, and it contains no removal of any of them (the script never
removes a directory). -/
theorem meiga_C7_gates :
    (∀ (w : World) (cmd : CmdLine),
      w.missingPyDeps ≠ [] ∨ w.missingProgDeps ≠ [] →
      runMain w cmd = ([], .exited 1))
    ∧ (∀ (w : World) (c b : String) (nb od : Option String) (p : Option Int)
        (d pr : Bool) (effs : List Effect) (pre : PreConf),
      w.missingPyDeps = [] → w.missingProgDeps = [] →
      resolveConf w (p.getD 1) d (some pr) b = (effs, .ok pre) →
      w.missing_db (cfgGet w.config "refDir") pre.annovarDir ≠ [] →
      runMain w (.call c b nb od p d pr) =
        ([.mkDir (mkOutDir w (od.getD w.cwd) d 0)] ++ effs ++
          [.mkDir (mkOutDir w (od.getD w.cwd) d 1),
           .mkDir (mkOutDir w (od.getD w.cwd) d 1 ++ "/logs"),
           .setupLogger (mkOutDir w (od.getD w.cwd) d 1 ++ "/logs" ++ "/main.log")],
         .exited 1)) := by
  constructor
  · intro w cmd h
    unfold runMain
    rcases hpy : w.missingPyDeps with _ | ⟨x, xs⟩
    · have hpr : w.missingProgDeps ≠ [] := by
        rcases h with h | h
        · exact absurd hpy h
        · exact h
      rcases hg : w.missingProgDeps with _ | ⟨y, ys⟩
      · exact absurd hg hpr
      · simp [hpy, hg]
    · simp [hpy]
  · intro w c b nb od p d pr effs pre h1 h2 hres hdb
    cases hL : w.missing_db (cfgGet w.config "refDir") pre.annovarDir with
    | nil => exact absurd hL hdb
    | cons x xs =>
      simp [runMain, h1, h2, parseArgs, pyGetattr, hres, hL]

/-- C7 witness: the first gate at a world missing `pysam` (exit 1, empty
trace), and the database gate at a world whose `missing_db` reports a
missing consensus file (directories and log created, then exit 1). -/
theorem meiga_C7_gates_witness :
    runMain depsWorld callCmd = ([], .exited 1)
    ∧ runMain dbWorld callCmd =
        ([.mkDir "/out", .mkDir "/out", .mkDir "/out/logs",
          .setupLogger "/out/logs/main.log"], .exited 1) := by
  constructor
  · exact meiga_C7_gates.1 depsWorld callCmd (Or.inl (by decide))
  · have h := meiga_C7_gates.2 dbWorld "conf.ini" "tumor.bam" none (some "/out")
      none false false [] _ rfl rfl rfl (by decide)
    exact h.trans (by rfl)

/-- C9: lines 159-160 read `minNbDISCORDANT` and `minNbCLIPPING` from the
`minClusterSize` key, so in every successful resolution — over any world,
any config file and any arguments — both fields equal the `minClusterSize`
field (first conjunct: the coupling is to that key, not to independent
keys).  Second conjunct: the end-to-end scenario — subcommand `call`,
`SINGLE` mode, `minClusterSize = 3` — reaches the standard engine's
constructor (`MEI_caller`, mode `SINGLE`, the single sample, no normal
sample) with `minClusterSize`, `minNbDISCORDANT` and `minNbCLIPPING` all
resolved to 3. -/
theorem meiga_C9_minClusterSize :
    (∀ (w : World) (p : Int) (d : Bool) (pa : Option Bool) (b : String) (pre : PreConf),
      (resolveConf w p d pa b).2 = .ok pre →
      pre.minNbDISCORDANT = pre.minClusterSize ∧ pre.minNbCLIPPING = pre.minClusterSize)
    ∧ (∃ c : ConfDict,
        runMain goodWorld callCmd =
          ([.mkDir "/out", .mkDir "/out", .mkDir "/out/logs",
            .setupLogger "/out/logs/main.log",
            .MEI_caller "SINGLE" "tumor.bam" none (some "ref.fa") (some "/refs") c,
            .callEngine], .exited 0)
        ∧ c.minClusterSize = some 3 ∧ c.minNbDISCORDANT = some 3
        ∧ c.minNbCLIPPING = some 3) := by
  constructor
  · intro w p d pa b pre h
    simp only [resolveConf] at h
    repeat' split at h
    all_goals simp_all
    all_goals (subst h; exact ⟨rfl, rfl⟩)
  · exact ⟨_, by rfl, by rfl, by rfl, by rfl⟩

/-- C9 witness: the coupling theorem applied at a concrete config whose
`minClusterSize` value is `7`. -/
theorem meiga_C9_minClusterSize_witness :
    ∃ pre : PreConf,
      (resolveConf (worldMCS "7") 1 false (some false) "tumor.bam").2 = .ok pre
      ∧ pre.minNbDISCORDANT = pre.minClusterSize
      ∧ pre.minNbCLIPPING = pre.minClusterSize := by
  refine ⟨_, by rfl, ?_⟩
  exact meiga_C9_minClusterSize.1 (worldMCS "7") 1 false (some false) "tumor.bam" _ rfl
